import Mathlib

/-!
# fcitx5-voice — verification of the consumer-side reconciler and session state machine

Shallow embedding of the C++ fcitx5 plugin of the fcitx5-voice repository.

The repository carries two revisions of `VoiceEngine`:

* `src/plugin/voice_engine.cpp` — the current revision, consistent with
  `src/plugin/voice_engine.h` (fields `recording_`, `processing_count_`,
  `preedit_text_`; delta handling appends; stop does not flush the preedit).
  Embedded below in namespace `Plugin`.
* the revision embedded in `src/unnamed/part_003` (fields `recording_`,
  `preedit_text_`; delta handling replaces; stop flushes the preedit).
  Embedded below in namespace `Variant`.

Engine member functions mutate the engine state and perform observable
side effects (D-Bus calls, text commits, preedit and notification updates,
log lines).  Each is embedded as a pure function
`State → State × List Effect`.  The C++ calls
`ic->updatePreedit()` / `ic->updateUserInterface(...)` that accompany a
commit / preedit / notification call are folded into the corresponding
single `Effect` constructor.  `instance_->mostRecentInputContext()` may
return null; its non-nullness is the explicit parameter `ic`.  A D-Bus
method call may throw; whether it succeeds is the explicit parameter `ok`.
-/

namespace FcitxVoice

/-- Observable side effects of the engine member functions. -/
inductive Effect where
  /-- Call `ic->commitString(text)` — final text injected into the application. -/
  | commit (text : String)
  /-- Call `ic->inputPanel().setClientPreedit(text)` with non-empty `text` (plus UI refresh). -/
  | setPreedit (text : String)
  /-- Call `ic->inputPanel().setClientPreedit(Text())` (plus UI refresh). -/
  | clearPreedit
  /-- Call `ic->inputPanel().setAuxUp(message)` (plus UI refresh). -/
  | notify (message : String)
  /-- Call `ic->inputPanel().reset()` (plus UI refresh). -/
  | clearNotify
  /-- Call `notification_timer_.reset()` in the part_003 revision. -/
  | timerCancel
  /-- Timer `instance_->eventLoop().addTimeEvent(...)` scheduled by `showTimedNotification`. -/
  | timerSet (ms : Nat)
  /-- the attempted `dbus_client_->startRecording()` call. -/
  | dbusStart
  /-- the attempted `dbus_client_->stopRecording()` call. -/
  | dbusStop
  /-- an `FCITX_WARN()` log line. -/
  | logWarn (message : String)
  /-- an `FCITX_ERROR()` log line. -/
  | logError (message : String)
  deriving Repr, DecidableEq

/-- The text committed by a single effect, if any. -/
def Effect.commitText : Effect → Option String
  | .commit t => some t
  | _ => none

/-- The sequence of committed strings carried by a list of effects. -/
def commitTexts (fx : List Effect) : List String :=
  fx.filterMap Effect.commitText

/-- Function `VoiceEngine::showNotification`: shows `message` in the aux-up panel when an
input context is present, otherwise does nothing. -/
def showNotification (ic : Bool) (message : String) : List Effect :=
  if ic then [.notify message] else []

/-- Function `VoiceEngine::clearNotification`: resets the input panel when an input
context is present, otherwise does nothing. -/
def clearNotification (ic : Bool) : List Effect :=
  if ic then [.clearNotify] else []

/-- Function `VoiceEngine::setPreedit`: sets the client preedit when an input context is
present, otherwise does nothing. -/
def setPreedit (ic : Bool) (text : String) : List Effect :=
  if ic then [.setPreedit text] else []

/-- Function `VoiceEngine::clearPreedit`: clears the client preedit when an input
context is present, otherwise does nothing. -/
def clearPreedit (ic : Bool) : List Effect :=
  if ic then [.clearPreedit] else []

namespace Plugin

/-- The mutable state of `fcitx::VoiceEngine` (src/plugin/voice_engine.h):
`recording_`, `processing_count_` (a C++ `int`, embedded as `Int`) and
`preedit_text_`. -/
structure EngineState where
  recording : Bool
  processing_count : Int
  preedit_text : String
  deriving Repr, DecidableEq

/-- The member initializers of voice_engine.h:
`recording_ = false`, `processing_count_ = 0`, `preedit_text_` empty. -/
def initState : EngineState :=
  { recording := false, processing_count := 0, preedit_text := "" }

/-- Function `VoiceEngine::updateStatus` (src/plugin/voice_engine.cpp:228-245). -/
def updateStatus (ic : Bool) (s : EngineState) : List Effect :=
  if s.recording ∧ 0 < s.processing_count then
    showNotification ic "🎤 録音中 | ⏳ 処理中"
  else if s.recording then
    showNotification ic "🎤 録音中 (Shift+Space で停止)"
  else if 0 < s.processing_count then
    showNotification ic "⏳ 処理中..."
  else
    clearNotification ic

/-- Function `VoiceEngine::startRecording` (src/plugin/voice_engine.cpp:86-102).
`ok` is whether `dbus_client_->startRecording()` returned without throwing. -/
def startRecording (ic ok : Bool) (s : EngineState) : EngineState × List Effect :=
  if s.recording then
    (s, [.logWarn "Already recording"])
  else if ok then
    let s1 : EngineState := { s with recording := true }
    -- processing_count_ is deliberately not cleared: previous transcriptions
    -- may still be in flight (comment at voice_engine.cpp:95)
    (s1, .dbusStart :: updateStatus ic s1)
  else
    ({ s with recording := false },
     [.dbusStart, .logError "Failed to start recording"] ++
       showNotification ic "❌ 録音開始失敗")

/-- Function `VoiceEngine::stopRecording` (src/plugin/voice_engine.cpp:104-123).
`ok` is whether `dbus_client_->stopRecording()` returned without throwing. -/
def stopRecording (ic ok : Bool) (s : EngineState) : EngineState × List Effect :=
  if !s.recording then
    (s, [.logWarn "Not recording"])
  else if ok then
    let s1 : EngineState := { s with recording := false }
    (s1, .dbusStop :: updateStatus ic s1)
  else
    ({ s with recording := false, processing_count := 0, preedit_text := "" },
     [.dbusStop, .logError "Failed to stop recording"] ++
       clearPreedit ic ++ clearNotification ic)

/-- Function `VoiceEngine::onTranscriptionDelta` (src/plugin/voice_engine.cpp:133-141):
ignores empty deltas, otherwise appends to `preedit_text_` and shows it. -/
def onTranscriptionDelta (ic : Bool) (s : EngineState) (text : String) :
    EngineState × List Effect :=
  if text = "" then (s, [])
  else
    let s1 : EngineState := { s with preedit_text := s.preedit_text ++ text }
    (s1, setPreedit ic s1.preedit_text)

/-- Function `VoiceEngine::onTranscriptionComplete` (src/plugin/voice_engine.cpp:143-172):
decrements `processing_count_` when strictly positive, clears the preedit, and
commits non-empty `text` when an input context is present.  `segment_num` is
received but not used by the body. -/
def onTranscriptionComplete (ic : Bool) (s : EngineState) (text : String)
    (segment_num : Int) : EngineState × List Effect :=
  let s1 : EngineState :=
    if 0 < s.processing_count then
      { s with processing_count := s.processing_count - 1 }
    else s
  let s2 : EngineState := { s1 with preedit_text := "" }
  if text = "" then
    (s2, clearPreedit ic ++ updateStatus ic s2)
  else if ic then
    (s2, clearPreedit ic ++ [.commit text] ++ updateStatus ic s2)
  else
    (s2, clearPreedit ic ++ [.logWarn "No active input context"] ++ updateStatus ic s2)

/-- The `ProcessingStarted` callback registered in the constructor
(src/plugin/voice_engine.cpp:24-28): increments `processing_count_`. -/
def onProcessingStarted (ic : Bool) (s : EngineState) (segment_num : Int) :
    EngineState × List Effect :=
  let s1 : EngineState := { s with processing_count := s.processing_count + 1 }
  (s1, updateStatus ic s1)

/-- Function `VoiceEngine::onError` (src/plugin/voice_engine.cpp:174-179): logs, shows
the error, clears `recording_` and resets `processing_count_` to 0. -/
def onError (ic : Bool) (s : EngineState) (message : String) :
    EngineState × List Effect :=
  ({ s with recording := false, processing_count := 0 },
   .logError ("Daemon error: " ++ message) :: showNotification ic ("❌ " ++ message))

/-- One externally triggered operation on the engine. -/
inductive EngineEvent where
  | start (ic ok : Bool)
  | stop (ic ok : Bool)
  | delta (ic : Bool) (text : String)
  | complete (ic : Bool) (text : String) (segment_num : Int)
  | processingStarted (ic : Bool) (segment_num : Int)
  | error (ic : Bool) (message : String)

/-- Dispatch of one operation to the corresponding member function. -/
def step (s : EngineState) : EngineEvent → EngineState × List Effect
  | .start ic ok => startRecording ic ok s
  | .stop ic ok => stopRecording ic ok s
  | .delta ic t => onTranscriptionDelta ic s t
  | .complete ic t n => onTranscriptionComplete ic s t n
  | .processingStarted ic n => onProcessingStarted ic s n
  | .error ic m => onError ic s m

end Plugin

namespace Variant

/-- The mutable state of the `VoiceEngine` revision embedded in
src/unnamed/part_003: `recording_` and `preedit_text_` (no processing count). -/
structure EngineState where
  recording : Bool
  preedit_text : String
  deriving Repr, DecidableEq

/-- Function `VoiceEngine::showTimedNotification` (part_003:394-405): shows the message
and schedules a timer that clears it after `duration_ms`. -/
def showTimedNotification (ic : Bool) (message : String) (duration_ms : Nat) :
    List Effect :=
  showNotification ic message ++ [.timerSet duration_ms]

/-- Function `VoiceEngine::updateStatus` of the part_003 revision (part_003:385-392). -/
def updateStatus (ic : Bool) (s : EngineState) : List Effect :=
  if s.recording then
    .timerCancel :: showNotification ic "🎤 録音中 (Shift+Space で停止)"
  else
    showTimedNotification ic "🎤 停止中 (Shift+Space で開始)" 3000

/-- Function `VoiceEngine::onTranscriptionDelta` of the part_003 revision
(part_003:300-308): ignores empty deltas, otherwise replaces `preedit_text_`
with the latest delta (the server resends the full partial text each time). -/
def onTranscriptionDelta (ic : Bool) (s : EngineState) (text : String) :
    EngineState × List Effect :=
  if text = "" then (s, [])
  else ({ s with preedit_text := text }, setPreedit ic text)

/-- Function `VoiceEngine::stopRecording` of the part_003 revision (part_003:267-290):
commits any pending preedit text immediately (when an input context is
present), clears it, then issues the D-Bus stop (exceptions only logged),
clears `recording_` and updates the status display. -/
def stopRecording (ic ok : Bool) (s : EngineState) : EngineState × List Effect :=
  if !s.recording then
    (s, [.logWarn "Not recording"])
  else
    let flushFx : List Effect :=
      if s.preedit_text = "" then []
      else (if ic then [.commit s.preedit_text] else []) ++ clearPreedit ic
    let stopFx : List Effect :=
      if ok then [.dbusStop] else [.dbusStop, .logError "Failed to stop recording"]
    let s1 : EngineState := { s with preedit_text := "", recording := false }
    (s1, flushFx ++ stopFx ++ updateStatus ic s1)

end Variant

namespace Daemon

/-- Modelled from the spec: the daemon side of the `GetStatus` D-Bus method
(`daemon/dbus_service.py`, not present under src/; `DBusClient::getStatus`
only relays the daemon's reply string verbatim).  Per spec §4.4/§6 and the
repository's interface documentation (dbus_client.h: returns `"recording"` or
`"idle"`; CLAUDE.md: `GetStatus() -> string` returns `"idle"` or
`"recording"`), the daemon answers `"recording"` exactly while a recording
session is active and `"idle"` otherwise. -/
def GetStatus (recording : Bool) : String :=
  if recording then "recording" else "idle"

end Daemon

/-! ## Helper lemmas -/

theorem commitTexts_nil : commitTexts [] = [] := rfl

theorem commitTexts_append (a b : List Effect) :
    commitTexts (a ++ b) = commitTexts a ++ commitTexts b := by
  simp [commitTexts]

theorem commitTexts_cons (e : Effect) (fx : List Effect) :
    commitTexts (e :: fx) = e.commitText.toList ++ commitTexts fx := by
  cases e <;> simp [commitTexts, Effect.commitText]

theorem commitTexts_showNotification (ic : Bool) (m : String) :
    commitTexts (showNotification ic m) = [] := by
  cases ic <;> simp [showNotification, commitTexts, Effect.commitText]

theorem commitTexts_clearNotification (ic : Bool) :
    commitTexts (clearNotification ic) = [] := by
  cases ic <;> simp [clearNotification, commitTexts, Effect.commitText]

theorem commitTexts_setPreedit (ic : Bool) (t : String) :
    commitTexts (setPreedit ic t) = [] := by
  cases ic <;> simp [setPreedit, commitTexts, Effect.commitText]

theorem commitTexts_clearPreedit (ic : Bool) :
    commitTexts (clearPreedit ic) = [] := by
  cases ic <;> simp [clearPreedit, commitTexts, Effect.commitText]

theorem commitTexts_updateStatus (ic : Bool) (s : Plugin.EngineState) :
    commitTexts (Plugin.updateStatus ic s) = [] := by
  unfold Plugin.updateStatus
  split
  · exact commitTexts_showNotification ic _
  split
  · exact commitTexts_showNotification ic _
  split
  · exact commitTexts_showNotification ic _
  · exact commitTexts_clearNotification ic

theorem commitTexts_variant_updateStatus (ic : Bool) (s : Variant.EngineState) :
    commitTexts (Variant.updateStatus ic s) = [] := by
  unfold Variant.updateStatus Variant.showTimedNotification
  split
  · cases ic <;> simp [showNotification, commitTexts, Effect.commitText]
  · cases ic <;> simp [showNotification, commitTexts, Effect.commitText]

/-! ## Claims -/

/-- C1, counterexample.  In the current plugin (src/plugin/voice_engine.cpp),
stopping from a Recording state with provisional buffer `"こんにち"` (input
context present, D-Bus stop succeeding, no further Completed event processed)
commits nothing and leaves the buffer's contents in place: the buffer is
neither committed nor cleared, contradicting the claim that its exact contents
are committed exactly once before it is cleared. -/
theorem stop_does_not_flush_counterexample :
    commitTexts (Plugin.stopRecording true true
      ⟨true, 0, "こんにち"⟩).2 = [] ∧
    (Plugin.stopRecording true true ⟨true, 0, "こんにち"⟩).1.preedit_text
      = "こんにち" := by
  constructor <;> rfl

/-- C1, amended.  In src/plugin/voice_engine.cpp, `stopRecording` from a
Recording state never commits the provisional buffer: when the D-Bus stop
succeeds the buffer is left unchanged (its text is resolved only by a later
Completed event), and when the D-Bus stop throws the buffer is cleared without
being committed.  Flush-on-stop holds only in the part_003 revision: there,
`stopRecording` from a Recording state with a non-empty buffer and an input
context present commits the buffer's exact contents exactly once and then
clears the buffer. -/
theorem stop_flush_behaviour (ic ok : Bool) (s : Plugin.EngineState)
    (v : Variant.EngineState) (hs : s.recording = true) (hv : v.recording = true)
    (hvp : v.preedit_text ≠ "") :
    commitTexts (Plugin.stopRecording ic ok s).2 = [] ∧
    (ok = true → (Plugin.stopRecording ic ok s).1.preedit_text = s.preedit_text) ∧
    (ok = false → (Plugin.stopRecording ic ok s).1.preedit_text = "") ∧
    commitTexts (Variant.stopRecording true ok v).2 = [v.preedit_text] ∧
    (Variant.stopRecording true ok v).1.preedit_text = "" := by
  refine ⟨?_, ?_, ?_, ?_, ?_⟩
  · unfold Plugin.stopRecording
    cases ok <;>
      simp [hs, commitTexts_cons, commitTexts_append, commitTexts_nil,
        commitTexts_updateStatus, commitTexts_clearPreedit,
        commitTexts_clearNotification, Effect.commitText]
  · intro hok
    subst hok
    simp [Plugin.stopRecording, hs]
  · intro hok
    subst hok
    simp [Plugin.stopRecording, hs]
  · unfold Variant.stopRecording
    cases ok <;>
      simp [hv, hvp, commitTexts_cons, commitTexts_append, commitTexts_nil,
        commitTexts_variant_updateStatus, commitTexts_clearPreedit,
        Effect.commitText, clearPreedit]
  · simp [Variant.stopRecording, hv]

/-- C1, witness for the amended theorem at a concrete Recording state with
buffer `"こんにち"`. -/
theorem stop_flush_behaviour_witness :
    (⟨true, 0, "こんにち"⟩ : Plugin.EngineState).recording = true ∧
    (⟨true, "こんにち"⟩ : Variant.EngineState).recording = true ∧
    (⟨true, "こんにち"⟩ : Variant.EngineState).preedit_text ≠ "" ∧
    (commitTexts (Plugin.stopRecording true true ⟨true, 0, "こんにち"⟩).2 = [] ∧
     (true = true →
       (Plugin.stopRecording true true ⟨true, 0, "こんにち"⟩).1.preedit_text
         = (⟨true, 0, "こんにち"⟩ : Plugin.EngineState).preedit_text) ∧
     (true = false →
       (Plugin.stopRecording true true ⟨true, 0, "こんにち"⟩).1.preedit_text = "") ∧
     commitTexts (Variant.stopRecording true true ⟨true, "こんにち"⟩).2
       = [(⟨true, "こんにち"⟩ : Variant.EngineState).preedit_text] ∧
     (Variant.stopRecording true true ⟨true, "こんにち"⟩).1.preedit_text = "") :=
  ⟨rfl, rfl, by decide,
   stop_flush_behaviour true true ⟨true, 0, "こんにち"⟩ ⟨true, "こんにち"⟩
     rfl rfl (by decide)⟩

/-- C2, counterexample.  The delta-accumulation policy is fixed per build, not
configured: on the same buffer `"こん"` and the same delta `"にち"`, the current
plugin (src/plugin/voice_engine.cpp) appends, producing `"こんにち"`, while the
part_003 revision replaces, producing `"にち"`.  Neither handler receives any
configuration input (both are functions of the engine state and the delta text
alone), so no configuration choice of the policy exists. -/
theorem delta_policy_per_build_counterexample :
    (Plugin.onTranscriptionDelta true ⟨true, 0, "こん"⟩ "にち").1.preedit_text
      = "こんにち" ∧
    (Variant.onTranscriptionDelta true ⟨true, "こん"⟩ "にち").1.preedit_text
      = "にち" := by
  constructor <;> rfl

/-- C2, amended.  The delta-accumulation policy is hardcoded per build rather
than configured: for every non-empty delta, the current plugin
(src/plugin/voice_engine.cpp) always appends (`buffer += text`) and the
part_003 revision always replaces (`buffer := text`); empty deltas are ignored
by both.  No configuration input selects between the two. -/
theorem delta_policy_hardcoded (ic : Bool) (s : Plugin.EngineState)
    (v : Variant.EngineState) (text : String) (h : text ≠ "") :
    (Plugin.onTranscriptionDelta ic s text).1.preedit_text
      = s.preedit_text ++ text ∧
    (Variant.onTranscriptionDelta ic v text).1.preedit_text = text := by
  constructor
  · simp [Plugin.onTranscriptionDelta, h]
  · simp [Variant.onTranscriptionDelta, h]

/-- C2, witness for the amended theorem at buffer `"こん"`, delta `"にち"`. -/
theorem delta_policy_hardcoded_witness :
    ("にち" : String) ≠ "" ∧
    ((Plugin.onTranscriptionDelta true ⟨true, 0, "こん"⟩ "にち").1.preedit_text
       = (⟨true, 0, "こん"⟩ : Plugin.EngineState).preedit_text ++ "にち" ∧
     (Variant.onTranscriptionDelta true ⟨true, "こん"⟩ "にち").1.preedit_text
       = "にち") :=
  ⟨by decide,
   delta_policy_hardcoded true ⟨true, 0, "こん"⟩ ⟨true, "こん"⟩ "にち" (by decide)⟩

/-- C3.  For every engine state and every error message, `onError` shows the
error to the user (after logging it), clears the recording flag and resets
`processing_count_` to 0. -/
theorem onError_forces_idle (ic : Bool) (s : Plugin.EngineState) (message : String) :
    (Plugin.onError ic s message).1.recording = false ∧
    (Plugin.onError ic s message).1.processing_count = 0 ∧
    (Plugin.onError ic s message).2 =
      .logError ("Daemon error: " ++ message) ::
        showNotification ic ("❌ " ++ message) := by
  refine ⟨rfl, rfl, rfl⟩

/-- C4, counterexample.  `onError` does not decrement `processing_count_` by
exactly one: from a state with `processing_count_ = 2`, an error resets the
count to 0, not to 1. -/
theorem error_resets_count_counterexample :
    (Plugin.onError true ⟨false, 2, ""⟩ "TransportError").1.processing_count = 0 ∧
    (Plugin.onError true ⟨false, 2, ""⟩ "TransportError").1.processing_count
      ≠ 2 - 1 := by
  constructor
  · rfl
  · decide

/-- C4, amended.  A failure reported through `onError` emits exactly one error
notification for the failed segment, but resets `processing_count_` to 0 (and
clears the recording flag) rather than decrementing it by one; a sibling
segment that is still Processing nevertheless resolves normally — its later
Completed event still commits its text (the commit path does not depend on the
counter). -/
theorem error_isolation (s : Plugin.EngineState) (msg t : String) (n : Int)
    (ht : t ≠ "") :
    (Plugin.onError true s msg).1.processing_count = 0 ∧
    (Plugin.onError true s msg).1.recording = false ∧
    (Plugin.onError true s msg).2 =
      [.logError ("Daemon error: " ++ msg), .notify ("❌ " ++ msg)] ∧
    commitTexts (Plugin.onTranscriptionComplete true
      (Plugin.onError true s msg).1 t n).2 = [t] := by
  refine ⟨rfl, rfl, rfl, ?_⟩
  unfold Plugin.onTranscriptionComplete
  simp [Plugin.onError, ht, commitTexts_cons, commitTexts_append, commitTexts_nil,
    commitTexts_updateStatus, commitTexts_clearPreedit, Effect.commitText,
    clearPreedit]

/-- C4, witness: a `TransportError` for segment 3 while segment 4 is
Processing; segment 4's completion still commits `"text4"`. -/
theorem error_isolation_witness :
    ("text4" : String) ≠ "" ∧
    ((Plugin.onError true ⟨false, 2, ""⟩ "TransportError").1.processing_count = 0 ∧
     (Plugin.onError true ⟨false, 2, ""⟩ "TransportError").1.recording = false ∧
     (Plugin.onError true ⟨false, 2, ""⟩ "TransportError").2 =
       [.logError ("Daemon error: " ++ "TransportError"),
        .notify ("❌ " ++ "TransportError")] ∧
     commitTexts (Plugin.onTranscriptionComplete true
       (Plugin.onError true ⟨false, 2, ""⟩ "TransportError").1 "text4" 4).2
       = ["text4"]) :=
  ⟨by decide, error_isolation ⟨false, 2, ""⟩ "TransportError" "text4" 4 (by decide)⟩

/-- C5.  For every engine state and segment id, a `Completed` event carrying
empty text clears the provisional buffer and commits nothing to the input
context (and the handler, being a total function, cannot crash). -/
theorem empty_completion_no_commit (ic : Bool) (s : Plugin.EngineState) (n : Int) :
    (Plugin.onTranscriptionComplete ic s "" n).1.preedit_text = "" ∧
    commitTexts (Plugin.onTranscriptionComplete ic s "" n).2 = [] := by
  constructor
  · unfold Plugin.onTranscriptionComplete
    split <;> rfl
  · unfold Plugin.onTranscriptionComplete
    simp [commitTexts_append, commitTexts_nil, commitTexts_updateStatus,
      commitTexts_clearPreedit]

/-- C6.  Calling `stopRecording` while not recording is a complete no-op apart
from a warning log line: no D-Bus command is issued, no commit, preedit,
notification or timer effect is produced, no exception escapes, and the state
is unchanged. -/
theorem stop_idle_noop (ic ok : Bool) (s : Plugin.EngineState)
    (h : s.recording = false) :
    Plugin.stopRecording ic ok s = (s, [.logWarn "Not recording"]) := by
  simp [Plugin.stopRecording, h]

/-- C6, witness at the initial (Idle) state. -/
theorem stop_idle_noop_witness :
    Plugin.initState.recording = false ∧
    Plugin.stopRecording true true Plugin.initState
      = (Plugin.initState, [.logWarn "Not recording"]) :=
  ⟨rfl, stop_idle_noop true true Plugin.initState rfl⟩

/-- C7.  Calling `startRecording` while already recording is rejected as a
logged no-op: no D-Bus command is issued, no other effect is produced, and the
state (recording flag, processing count, provisional buffer) is unchanged. -/
theorem start_already_recording_noop (ic ok : Bool) (s : Plugin.EngineState)
    (h : s.recording = true) :
    Plugin.startRecording ic ok s = (s, [.logWarn "Already recording"]) := by
  simp [Plugin.startRecording, h]

/-- C7, witness at a Recording state with a pending segment and buffer. -/
theorem start_already_recording_noop_witness :
    (⟨true, 1, "あ"⟩ : Plugin.EngineState).recording = true ∧
    Plugin.startRecording true true ⟨true, 1, "あ"⟩
      = (⟨true, 1, "あ"⟩, [.logWarn "Already recording"]) :=
  ⟨rfl, start_already_recording_noop true true ⟨true, 1, "あ"⟩ rfl⟩

/-- C8.  A successful `startRecording` from an Idle state leaves
`processing_count_` unchanged, and the prior session's pending Completed
events still commit correctly afterwards: two subsequent non-empty Completed
events each commit exactly their own text. -/
theorem start_preserves_processing_count (s : Plugin.EngineState)
    (t1 t2 : String) (n1 n2 : Int) (h : s.recording = false)
    (h1 : t1 ≠ "") (h2 : t2 ≠ "") :
    (Plugin.startRecording true true s).1.processing_count = s.processing_count ∧
    commitTexts (Plugin.onTranscriptionComplete true
      (Plugin.startRecording true true s).1 t1 n1).2 = [t1] ∧
    commitTexts (Plugin.onTranscriptionComplete true
      (Plugin.onTranscriptionComplete true
        (Plugin.startRecording true true s).1 t1 n1).1 t2 n2).2 = [t2] := by
  refine ⟨?_, ?_, ?_⟩
  · simp [Plugin.startRecording, h]
  · unfold Plugin.onTranscriptionComplete
    simp [h1, commitTexts_cons, commitTexts_append, commitTexts_nil,
      commitTexts_updateStatus, commitTexts_clearPreedit, Effect.commitText,
      clearPreedit]
  · unfold Plugin.onTranscriptionComplete
    simp [h2, commitTexts_cons, commitTexts_append, commitTexts_nil,
      commitTexts_updateStatus, commitTexts_clearPreedit, Effect.commitText,
      clearPreedit]

/-- C8, witness: a new session starts while `processing_count_ = 2` from the
prior session; the count stays 2 and both pending completions commit. -/
theorem start_preserves_processing_count_witness :
    (⟨false, 2, ""⟩ : Plugin.EngineState).recording = false ∧
    ("first" : String) ≠ "" ∧ ("second" : String) ≠ "" ∧
    ((Plugin.startRecording true true ⟨false, 2, ""⟩).1.processing_count
       = (⟨false, 2, ""⟩ : Plugin.EngineState).processing_count ∧
     commitTexts (Plugin.onTranscriptionComplete true
       (Plugin.startRecording true true ⟨false, 2, ""⟩).1 "first" 0).2 = ["first"] ∧
     commitTexts (Plugin.onTranscriptionComplete true
       (Plugin.onTranscriptionComplete true
         (Plugin.startRecording true true ⟨false, 2, ""⟩).1 "first" 0).1
       "second" 1).2 = ["second"]) :=
  ⟨rfl, by decide, by decide,
   start_preserves_processing_count ⟨false, 2, ""⟩ "first" "second" 0 1 rfl
     (by decide) (by decide)⟩

/-- C9.  `GetStatus` answers with exactly one of the two strings `"idle"` and
`"recording"`, and answers `"recording"` exactly when a recording session is
active. -/
theorem get_status_accuracy (recording : Bool) :
    (Daemon.GetStatus recording = "idle" ∨ Daemon.GetStatus recording = "recording") ∧
    (Daemon.GetStatus recording = "recording" ↔ recording = true) := by
  cases recording <;> simp [Daemon.GetStatus]

/-- C10.  `processing_count_` starts at 0 and no operation can make it
negative: the Completed handler decrements it only when it is strictly
positive, the ProcessingStarted callback increments it, and the error path and
the failing stop path reset it to 0. -/
theorem processing_count_nonneg :
    Plugin.initState.processing_count = 0 ∧
    ∀ (s : Plugin.EngineState) (e : Plugin.EngineEvent),
      0 ≤ s.processing_count → 0 ≤ (Plugin.step s e).1.processing_count := by
  refine ⟨rfl, ?_⟩
  intro s e h
  cases e with
  | start ic ok =>
    simp only [Plugin.step]
    unfold Plugin.startRecording
    split
    · exact h
    split <;> exact h
  | stop ic ok =>
    simp only [Plugin.step]
    unfold Plugin.stopRecording
    split
    · exact h
    split
    · exact h
    · exact le_refl (0 : Int)
  | delta ic t =>
    simp only [Plugin.step]
    unfold Plugin.onTranscriptionDelta
    split <;> exact h
  | complete ic t n =>
    simp only [Plugin.step]
    unfold Plugin.onTranscriptionComplete
    split <;> split <;> (try split) <;> simp only [] <;> omega
  | processingStarted ic n =>
    simp only [Plugin.step]
    unfold Plugin.onProcessingStarted
    simp only []
    omega
  | error ic m =>
    simp only [Plugin.step]
    unfold Plugin.onError
    exact le_refl (0 : Int)

/-- C10, witness: from a state with one Processing segment, a Completed event
leaves the count non-negative. -/
theorem processing_count_nonneg_witness :
    0 ≤ (⟨true, 1, "あ"⟩ : Plugin.EngineState).processing_count ∧
    0 ≤ (Plugin.step ⟨true, 1, "あ"⟩ (.complete true "text" 0)).1.processing_count :=
  ⟨by decide,
   processing_count_nonneg.2 ⟨true, 1, "あ"⟩ (.complete true "text" 0) (by decide)⟩

end FcitxVoice
